import Mathlib

/-!
Shallow embedding of the OpsIntel dashboard aggregation core:
the TTL caches, the three source fetchers, the data-hash fingerprint,
the insight generator (`analyzeInsight` in `src/lib/fetchInsight.ts`)
and the aggregation handler (`pages/api/dashboard.ts`).

Modelling conventions:
* Timestamps and durations are `Nat` milliseconds; `Date.now()` is a `now`
  parameter threaded through each call (one instant per request).
  ISO-8601 strings produced by `new Date(t).toISOString()` are modelled by
  `t` itself (the string round-trips through `new Date(s).getTime()`
  monotonically and injectively, so only the numeric order is observable).
* JavaScript numbers are modelled as `Rat` (the code performs no operation
  whose rounding behaviour at float precision any claim depends on);
  `NaN`-producing parses are modelled explicitly where the code tests them.
* A JavaScript `Map` is an insertion-ordered association list:
  `Map.set` updates in place or appends, `Map.delete` removes,
  `Map.values()` iterates in insertion order.
* Outbound HTTP is a parameter of each fetcher: an upstream outcome value
  covering "request failed" (timeout / non-2xx / JSON parse throw) and
  "2xx with this body".  The external digest functions (md5 / sha1) are
  `String → String` parameters: all the program observes of them is that
  they are functions of the serialized string.
-/

/- The Batteries `Rat` operations are `@[irreducible]` by default, which
keeps concrete runs of the embedded functions from evaluating inside
`decide`/`rfl` proofs; re-marking them semireducible only changes
elaboration-time unfolding (the kernel ignores reducibility attributes). -/
set_option allowUnsafeReducibility true
attribute [local semireducible] Rat.mul Rat.add Rat.sub Rat.div Rat.neg Rat.inv
attribute [local semireducible] Rat.ofScientific

/-! ## JavaScript `Map` as an insertion-ordered association list -/

/-- `Map.set`: update an existing key in place (keeping its insertion
position) or append a fresh key at the end. -/
def mapSet {V : Type} (l : List (String × V)) (k : String) (v : V) :
    List (String × V) :=
  match l with
  | [] => [(k, v)]
  | (k0, v0) :: rest =>
    if k0 = k then (k, v) :: rest else (k0, v0) :: mapSet rest k v

/-- `Map.delete`: remove the entry for a key (no-op when absent). -/
def mapDelete {V : Type} (l : List (String × V)) (k : String) :
    List (String × V) :=
  match l with
  | [] => []
  | (k0, v0) :: rest =>
    if k0 = k then rest else (k0, v0) :: mapDelete rest k

/-! ## JavaScript numeric helpers -/

/-- `Math.round`: round half toward positive infinity. -/
def jsRound (q : ℚ) : ℤ := Rat.floor (q + 1/2)

/-- `Math.round(x * 10) / 10` — round to 1 decimal. -/
def round1 (q : ℚ) : ℚ := (jsRound (q * 10) : ℚ) / 10

/-- `Math.round(x * 100) / 100` — round to 2 decimals. -/
def round2 (q : ℚ) : ℚ := (jsRound (q * 100) : ℚ) / 100

/-- `Math.round(x / 5) * 5` — round to the nearest 5. -/
def roundTo5 (q : ℚ) : ℤ := jsRound (q / 5) * 5

/-- `x.toFixed(1)` for a non-negative number: one digit after the point,
ties rounded up (the larger candidate `n` is chosen per the `toFixed`
specification). -/
def toFixed1 (q : ℚ) : String :=
  let m := (Rat.floor (q * 10 + 1/2)).toNat
  toString (m / 10) ++ "." ++ toString (m % 10)

/-- JavaScript `a || b` on strings: `a` unless it is empty (falsy). -/
def jsOr (a b : String) : String := if a = "" then b else a

/-- `s.includes(c)` for a single-character needle: scan the characters. -/
def jsIncludesChar (s : String) (c : Char) : Bool := s.data.contains c

/-! ## Shared metric record types (identical interfaces are declared in
`fetchFred.ts`, `fetchEia.ts`, `fetchWeather.ts`, `fetchInsight.ts` and
`dashboard.ts`; they are embedded once) -/

inductive EnergyTrend where
  | up
  | down
  | stable
deriving DecidableEq, Repr

/-- `'up' | 'down' | 'stable'` rendered back to its source string. -/
def EnergyTrend.toStr : EnergyTrend → String
  | .up => "up"
  | .down => "down"
  | .stable => "stable"

structure ProductionData where
  index : ℚ
  trend : String
deriving DecidableEq, Repr

structure EnergyData where
  centsPerKwh : ℚ
  trend : EnergyTrend
deriving DecidableEq, Repr

structure WeatherData where
  temp : ℚ
  alert : String
deriving DecidableEq, Repr

structure InsightResponse where
  summary : String
  recommendation : String
deriving DecidableEq, Repr

structure InsightInput where
  production : ProductionData
  energy : EnergyData
  weather : WeatherData
deriving DecidableEq, Repr

/-! ## `JSON.stringify` with an array replacer — the Data-Hash serialization

`generateDataHash` (duplicated verbatim in `fetchInsight.ts` and
`dashboard.ts`, md5 vs sha1) builds a normalized object and serializes it
with `JSON.stringify(normalizedData, Object.keys(normalizedData).sort())`.
Per ECMA-262, an *array* second argument is a property allow-list applied
to the keys of every object at every depth, and the keys of each object
are emitted in the order of that list. -/

mutual
inductive Json where
  | num (q : ℚ)
  | str (s : String)
  | obj (fields : JsonFields)
deriving DecidableEq
inductive JsonFields where
  | nil
  | cons (k : String) (v : Json) (rest : JsonFields)
deriving DecidableEq
end

/-- Property lookup among an object's fields (first match). -/
def JsonFields.lookupKey : JsonFields → String → Option Json
  | .nil, _ => none
  | .cons k0 v rest, k => if k0 = k then some v else rest.lookupKey k

/-- JSON rendering of a numeric leaf.  In the program's only serialization
(`dataString` below) every numeric leaf sits under a key that the replacer
list filters out, so this rendering is unreachable; see
`dataString_constant`. -/
def jsonNum (q : ℚ) : String := toString q

/-- JSON rendering of a string leaf (escaping elided: string leaves are
likewise filtered out by the replacer before rendering). -/
def jsonQuote (s : String) : String := "\"" ++ s ++ "\""

mutual
/-- `JSON.stringify(v, K)` with `K` an array replacer: each object emits,
in the order of `K`, exactly its properties whose keys occur in `K`.
(Formulated as "render every field, then select by `K`" so the recursion
is structural; rendering is pure and selection looks only at keys, so this
is observationally the ECMA algorithm, which renders only selected keys.) -/
def jsonStringify (K : List String) : Json → String
  | .num q => jsonNum q
  | .str s => jsonQuote s
  | .obj fields =>
    let rendered := jsonFieldsRendered K fields
    "\x7b" ++ String.intercalate ","
      (K.filterMap (fun k =>
        (rendered.lookup k).map (fun sv => "\"" ++ k ++ "\":" ++ sv)))
      ++ "\x7d"
/-- Every field of an object rendered, in object order, keyed by name. -/
def jsonFieldsRendered (K : List String) : JsonFields → List (String × String)
  | .nil => []
  | .cons k v rest => (k, jsonStringify K v) :: jsonFieldsRendered K rest
end

/-- Code-unit-wise `≤` on strings, as used by `Array.prototype.sort`'s
default comparator. -/
def strLeB (a b : String) : Bool :=
  let rec go : List Char → List Char → Bool
    | [], _ => true
    | _ :: _, [] => false
    | x :: xs, y :: ys =>
      if x.toNat < y.toNat then true
      else if y.toNat < x.toNat then false
      else go xs ys
  go a.data b.data

/-- Stable insertion sort ascending by `strLeB` (the default string sort
order of `Array.prototype.sort`). -/
def jsSortInsert (x : String) : List String → List String
  | [] => [x]
  | y :: ys => if strLeB x y then x :: y :: ys else y :: jsSortInsert x ys

def jsSortStrings (l : List String) : List String := l.foldr jsSortInsert []

/-- `Object.keys(normalizedData).sort()`: the three top-level keys in
ascending code-unit order. -/
def jsonReplacerKeys : List String :=
  jsSortStrings ["production", "energy", "weather"]

/-- The `normalizedData` object built by `generateDataHash`: index rounded
to 1 decimal, price to 2 decimals, temperature to the nearest 5 degrees,
trend/alert strings verbatim. -/
def normalizedData (d : InsightInput) : Json :=
  .obj (.cons "production"
          (.obj (.cons "index" (.num (round1 d.production.index))
                (.cons "trend" (.str d.production.trend) .nil)))
       (.cons "energy"
          (.obj (.cons "centsPerKwh" (.num (round2 d.energy.centsPerKwh))
                (.cons "trend" (.str d.energy.trend.toStr) .nil)))
       (.cons "weather"
          (.obj (.cons "temp" (.num ((roundTo5 d.weather.temp : ℤ) : ℚ))
                (.cons "alert" (.str d.weather.alert) .nil)))
        .nil)))

/-- `dataString` of `generateDataHash`:
`JSON.stringify(normalizedData, Object.keys(normalizedData).sort())`. -/
def dataString (d : InsightInput) : String :=
  jsonStringify jsonReplacerKeys (normalizedData d)

/-- `generateDataHash` of `fetchInsight.ts`: md5 hex digest of
`dataString`.  The digest is an external library function, passed in as a
parameter; the program observes only that it is a function. -/
def generateDataHash (md5 : String → String) (d : InsightInput) : String :=
  md5 (dataString d)

/-- `generateDataHash` of `dashboard.ts` (`part_002`): the same normalized
serialization, digested with sha1 instead of md5. -/
def generateDataHashApi (sha1 : String → String)
    (p : ProductionData) (e : EnergyData) (w : WeatherData) : String :=
  sha1 (dataString ⟨p, e, w⟩)

/-- None of the nested keys (`index`, `trend`, `centsPerKwh`, `temp`,
`alert`) occurs in the replacer list, so every nested object serializes as
`{}` and the whole `dataString` is one constant string: the fingerprint
never depends on the metric values. -/
theorem dataString_constant (d : InsightInput) :
    dataString d =
      "\x7b\"energy\":\x7b\x7d,\"production\":\x7b\x7d,\"weather\":\x7b\x7d\x7d" := by
  rfl

/-! ## Dynamic JavaScript values — the `any`-typed input of `analyzeInsight` -/

/-!
`JsValue` is a runtime JavaScript value, as far as `validateInputData` can
observe one: numbers, strings, booleans, `null`, `undefined` and plain
objects.  (`NaN` does not arise among the claims' inputs and is omitted;
`typeof NaN === 'number'` would only add one more failing case.) -/
mutual
inductive JsValue where
  | vnum (q : ℚ)
  | vstr (s : String)
  | vbool (b : Bool)
  | vnull
  | vundefined
  | vobj (fields : JsFields)
deriving DecidableEq
inductive JsFields where
  | nil
  | cons (k : String) (v : JsValue) (rest : JsFields)
deriving DecidableEq
end

/-- Property lookup among an object's own fields (first match). -/
def JsFields.lookupKey : JsFields → String → Option JsValue
  | .nil, _ => none
  | .cons k0 v rest, k => if k0 = k then some v else rest.lookupKey k

/-- JavaScript truthiness. -/
def JsValue.truthy : JsValue → Bool
  | .vnum q => q != 0
  | .vstr s => s != ""
  | .vbool b => b
  | .vnull => false
  | .vundefined => false
  | .vobj _ => true

/-- `typeof v === 'object'` (true for objects and for `null`). -/
def JsValue.isObjectType : JsValue → Bool
  | .vobj _ => true
  | .vnull => true
  | _ => false

/-- `typeof v === 'number'`. -/
def JsValue.isNumberType : JsValue → Bool
  | .vnum _ => true
  | _ => false

/-- `typeof v === 'string'`. -/
def JsValue.isStringType : JsValue → Bool
  | .vstr _ => true
  | _ => false

/-- Property access `v.k`: `undefined` on missing keys and on non-object
values (the code only dereferences after a truthiness guard, so the
throwing cases `null.k` / `undefined.k` are never reached). -/
def JsValue.field (v : JsValue) (k : String) : JsValue :=
  match v with
  | .vobj fields => (fields.lookupKey k).getD .vundefined
  | _ => .vundefined

/-- Numeric payload of a value already known to be a number. -/
def JsValue.asNum : JsValue → ℚ
  | .vnum q => q
  | _ => 0

/-- String payload of a value already known to be a string. -/
def JsValue.asStr : JsValue → String
  | .vstr s => s
  | _ => ""

/-- `validateInputData` of `fetchInsight.ts`: the input must be a truthy
object whose `production`/`energy`/`weather` members are truthy, with
`production.index`/`energy.centsPerKwh`/`weather.temp` numbers,
`production.trend`/`weather.alert` strings, and `energy.trend` one of
`'up' | 'down' | 'stable'`. -/
def validateInputData (data : JsValue) : Bool :=
  if ¬ (data.truthy && data.isObjectType) then false
  else
    let production := data.field "production"
    let energy := data.field "energy"
    let weather := data.field "weather"
    if ¬ production.truthy || ¬ (production.field "index").isNumberType
        || ¬ (production.field "trend").isStringType then false
    else if ¬ energy.truthy || ¬ (energy.field "centsPerKwh").isNumberType
        || ¬ ((energy.field "trend") == .vstr "up"
              || (energy.field "trend") == .vstr "down"
              || (energy.field "trend") == .vstr "stable") then false
    else if ¬ weather.truthy || ¬ (weather.field "temp").isNumberType
        || ¬ (weather.field "alert").isStringType then false
    else true

/-- The energy trend string of a validated input, back as the enum. -/
def strToTrend (s : String) : EnergyTrend :=
  if s = "up" then .up else if s = "down" then .down else .stable

/-- The typed reading of a validated input, as the fields `analyzeInsight`
actually dereferences after validation. -/
def toInsightInput (data : JsValue) : InsightInput :=
  { production :=
      { index := ((data.field "production").field "index").asNum
        trend := ((data.field "production").field "trend").asStr }
    energy :=
      { centsPerKwh := ((data.field "energy").field "centsPerKwh").asNum
        trend := strToTrend ((data.field "energy").field "trend").asStr }
    weather :=
      { temp := ((data.field "weather").field "temp").asNum
        alert := ((data.field "weather").field "alert").asStr } }

/-- The typed metric triple rendered back as the JavaScript object the
handler passes to `analyzeInsight({ production, energy, weather })`. -/
def toJsValue (p : ProductionData) (e : EnergyData) (w : WeatherData) : JsValue :=
  .vobj
    (.cons "production"
       (.vobj (.cons "index" (.vnum p.index)
              (.cons "trend" (.vstr p.trend) .nil)))
    (.cons "energy"
       (.vobj (.cons "centsPerKwh" (.vnum e.centsPerKwh)
              (.cons "trend" (.vstr e.trend.toStr) .nil)))
    (.cons "weather"
       (.vobj (.cons "temp" (.vnum w.temp)
              (.cons "alert" (.vstr w.alert) .nil)))
     .nil)))

/-! ## The TTL caches

`fetchFred.ts`, `fetchEia.ts` and `fetchWeather.ts` each declare an
identical `SimpleCache` class (`set(key, data, ttlMs)` stores
`expires = Date.now() + ttlMs`; `get` returns `null` — deleting the entry —
when `Date.now() > expires`).  It is embedded once, generically. -/

structure CacheEntry (V : Type) where
  data : V
  expires : ℕ
deriving DecidableEq, Repr

/-- `SimpleCache.set`. -/
def SimpleCache.set {V : Type} (σ : List (String × CacheEntry V))
    (key : String) (data : V) (ttlMs now : ℕ) : List (String × CacheEntry V) :=
  mapSet σ key ⟨data, now + ttlMs⟩

/-- `SimpleCache.get`: the value when present and `now ≤ expires`;
otherwise absent, deleting an expired entry as a side effect.  Returns the
resulting cache alongside. -/
def SimpleCache.get {V : Type} (σ : List (String × CacheEntry V))
    (key : String) (now : ℕ) : Option V × List (String × CacheEntry V) :=
  match σ.lookup key with
  | none => (none, σ)
  | some item => if now > item.expires then (none, mapDelete σ key) else (some item.data, σ)

/-- The insight cache of `fetchInsight.ts` (class `InsightCache`): the same
map logic with the TTL fixed at 30 minutes inside `set`. -/
def insightCacheTTL : ℕ := 30 * 60 * 1000

abbrev InsightCacheState := List (String × CacheEntry InsightResponse)

/-- `InsightCache.set`. -/
def InsightCache.set (σ : InsightCacheState) (key : String)
    (data : InsightResponse) (now : ℕ) : InsightCacheState :=
  SimpleCache.set σ key data insightCacheTTL now

/-- `InsightCache.get`. -/
def InsightCache.get (σ : InsightCacheState) (key : String) (now : ℕ) :
    Option InsightResponse × InsightCacheState :=
  SimpleCache.get σ key now

/-- `Array.from(cache['cache'].values())[0]?.data`: the value of the
first-inserted entry still in the map (expired or not), if any. -/
def InsightCache.firstValue (σ : InsightCacheState) : Option InsightResponse :=
  σ.head?.map (fun kv => kv.2.data)

/-! ## Source fetcher: `getProductionIndex` (`fetchFred.ts`) -/

/-- The string `value` of a FRED observation, partitioned by what the code
tests: the `'.'` missing-data sentinel, a `parseFloat`-parseable number, or
junk that parses to `NaN`. -/
inductive FredValue where
  | missing
  | num (q : ℚ)
  | junk
deriving DecidableEq

/-- `parseFloat(value)`: `none` models `NaN` (the `'.'` sentinel also
parses to `NaN`, but it is filtered out before any parse). -/
def FredValue.parseF : FredValue → Option ℚ
  | .num q => some q
  | _ => none

structure FredObservation where
  date : ℕ
  value : FredValue
deriving DecidableEq

/-- Stable insertion into a list sorted descending by date —
`observations.sort((a, b) => new Date(b.date) - new Date(a.date))`. -/
def fredInsertDesc (o : FredObservation) : List FredObservation → List FredObservation
  | [] => [o]
  | x :: xs => if x.date ≥ o.date then x :: fredInsertDesc o xs else o :: x :: xs

def fredSortDesc (l : List FredObservation) : List FredObservation :=
  l.foldr fredInsertDesc []

/-- Outcome of the outbound FRED request: `fail` covers timeout, non-2xx
and a JSON body that does not parse; `okBody obs?` is a 2xx JSON body,
with `none` when it lacks an `observations` array. -/
inductive FredOutcome where
  | fail
  | okBody (observations : Option (List FredObservation))

/-- The body of `getProductionIndex`'s `try` block after the fetch:
`none` models a thrown error (caught into the fallback). -/
def computeProduction (observations : Option (List FredObservation)) :
    Option ProductionData :=
  match observations with
  | none => none
  | some obs =>
    if obs.isEmpty then none
    else
      let validObservations := fredSortDesc (obs.filter (fun o => o.value ≠ .missing))
      match validObservations with
      | [] => none
      | first :: rest =>
        match first.value.parseF with
        | none => none
        | some latestValue =>
          let trend :=
            match rest with
            | [] => "→ No data"
            | second :: _ =>
              match second.value.parseF with
              | none => "→ No data"
              | some previousValue =>
                if previousValue = 0 then "→ No data"
                else
                  let percentChange := (latestValue - previousValue) / previousValue * 100
                  let sign := if percentChange > 0 then "↑"
                              else if percentChange < 0 then "↓" else "→"
                  sign ++ " " ++ toFixed1 |percentChange| ++ "% MoM"
          some ⟨round1 latestValue, trend⟩

def fredCacheKey : String := "fred_production_index"
def fredCacheTTL : ℕ := 60 * 60 * 1000

/-- The documented production fallback literal. -/
def productionFallback : ProductionData := ⟨102.4, "→ Data unavailable"⟩

/-- `getProductionIndex`: cached value if fresh; a *thrown* error when the
credential is absent (this check sits before the `try`); otherwise the
computed result (cached on success) or, for any failure inside the `try`,
the fallback literal. -/
def getProductionIndex (σ : List (String × CacheEntry ProductionData))
    (now : ℕ) (apiKey : Option String) (upstream : FredOutcome) :
    Except String ProductionData × List (String × CacheEntry ProductionData) :=
  match SimpleCache.get σ fredCacheKey now with
  | (some cachedData, σ1) => (.ok cachedData, σ1)
  | (none, σ1) =>
    match apiKey with
    | none => (.error "FRED_API_KEY environment variable is required", σ1)
    | some _ =>
      match upstream with
      | .fail => (.ok productionFallback, σ1)
      | .okBody observations =>
        match computeProduction observations with
        | none => (.ok productionFallback, σ1)
        | some result =>
          (.ok result, SimpleCache.set σ1 fredCacheKey result fredCacheTTL now)

/-! ## Source fetcher: `getEnergyPrice` (`fetchEia.ts`, `part_006`) -/

/-- An EIA `value` field: `null`, a `NaN` number, or a number.  The filter
keeps `point.value !== null && !isNaN(point.value)`. -/
inductive EiaValue where
  | null
  | nan
  | num (q : ℚ)
deriving DecidableEq

/-- A monthly observation.  `period` is a `"YYYY-MM"` string compared with
`localeCompare`, which on these strings is chronological order; it is
modelled by a number with that order. -/
structure EiaPoint where
  period : ℕ
  value : EiaValue
deriving DecidableEq

def EiaValue.isValid : EiaValue → Bool
  | .num _ => true
  | _ => false

def EiaValue.asNum : EiaValue → ℚ
  | .num q => q
  | _ => 0

def eiaInsertDesc (o : EiaPoint) : List EiaPoint → List EiaPoint
  | [] => [o]
  | x :: xs => if x.period ≥ o.period then x :: eiaInsertDesc o xs else o :: x :: xs

/-- `.sort((a, b) => b.period.localeCompare(a.period))` — descending. -/
def eiaSortDesc (l : List EiaPoint) : List EiaPoint :=
  l.foldr eiaInsertDesc []

/-- Outcome of the outbound EIA request: `fail` is timeout / non-2xx /
unparseable JSON; `okBody` carries `data.response?.data` (`none` when the
nesting is absent or empty is expressed by the options/lists). -/
inductive EiaOutcome where
  | fail
  | okBody (responseData : Option (List (Option (List EiaPoint))))

/-- The body of `getEnergyPrice`'s `try` block after the fetch:
`none` models a thrown error (caught into the fallback). -/
def computeEnergy (responseData : Option (List (Option (List EiaPoint)))) :
    Option EnergyData :=
  match responseData with
  | none => none
  | some seriesList =>
    if seriesList.isEmpty then none
    else
      match seriesList.head?.getD none with
      | none => none
      | some priceData =>
        if priceData.isEmpty then none
        else
          let sortedData := eiaSortDesc (priceData.filter (fun p => p.value.isValid))
          match sortedData with
          | [] => none
          | first :: rest =>
            let latestPrice := first.value.asNum
            if latestPrice ≤ 0 then none
            else
              let trend : EnergyTrend :=
                match rest with
                | [] => .stable
                | second :: _ =>
                  let previousPrice := second.value.asNum
                  if previousPrice > 0 then
                    let percentChange := (latestPrice - previousPrice) / previousPrice * 100
                    if percentChange > 2 then .up
                    else if percentChange < -2 then .down
                    else .stable
                  else .stable
              some ⟨round2 latestPrice, trend⟩

def eiaCacheKey : String := "eia_texas_electricity_price"
def eiaCacheTTL : ℕ := 10 * 60 * 1000

/-- The documented energy fallback literal. -/
def energyFallback : EnergyData := ⟨12.5, .stable⟩

/-- `getEnergyPrice`: same template as `getProductionIndex`. -/
def getEnergyPrice (σ : List (String × CacheEntry EnergyData))
    (now : ℕ) (apiKey : Option String) (upstream : EiaOutcome) :
    Except String EnergyData × List (String × CacheEntry EnergyData) :=
  match SimpleCache.get σ eiaCacheKey now with
  | (some cachedData, σ1) => (.ok cachedData, σ1)
  | (none, σ1) =>
    match apiKey with
    | none => (.error "EIA_API_KEY environment variable is required", σ1)
    | some _ =>
      match upstream with
      | .fail => (.ok energyFallback, σ1)
      | .okBody responseData =>
        match computeEnergy responseData with
        | none => (.ok energyFallback, σ1)
        | some result =>
          (.ok result, SimpleCache.set σ1 eiaCacheKey result eiaCacheTTL now)

/-! ## Source fetcher: `getLocalWeather` (`fetchWeather.ts`, `part_005`) -/

structure WeatherCond where
  id : ℤ
  main : String
  description : String
deriving DecidableEq

structure WeatherAlert where
  event : String
  description : String
deriving DecidableEq

/-- The OpenWeatherMap body fields the code reads.  `temp` is
`data.main?.temp` (`none` when `main` or `temp` is absent or `null`); the
falsy-zero case is tested explicitly below. -/
structure WeatherBody where
  temp : Option ℚ
  weather : List WeatherCond
  alerts : Option (List WeatherAlert)
deriving DecidableEq

inductive WeatherOutcome where
  | fail
  | okBody (body : WeatherBody)

/-- The fixed severe-weather condition id set (thunderstorms, heavy rain,
heavy snow, atmospheric conditions). -/
def severeWeatherIds : List ℤ :=
  [200, 201, 202, 210, 211, 212, 221, 230, 231, 232,
   502, 503, 504, 511, 522, 531,
   602, 622,
   711, 721, 731, 741, 751, 761, 762, 771, 781]

/-- The body of `getLocalWeather`'s `try` block after the fetch: `none`
models a thrown error (caught into the fallback).  `!data.main?.temp`
throws for an absent, `null` or `0` temperature (0 is falsy); the
subsequent `isNaN` test can then never fire and has no model branch. -/
def computeWeather (body : WeatherBody) : Option WeatherData :=
  match body.temp with
  | none => none
  | some t =>
    if t = 0 then none
    else
      let temperature : ℤ := jsRound t
      let alertMessage :=
        match body.weather with
        | [] => "none"
        | mainWeather :: _ =>
          let fromId :=
            if severeWeatherIds.contains mainWeather.id then
              mainWeather.main ++ ": " ++ mainWeather.description
            else "none"
          if temperature ≥ 100 then "Extreme heat warning"
          else if temperature ≤ 32 then "Freezing temperature alert"
          else fromId
      let alertMessage :=
        match body.alerts with
        | some (activeAlert :: _) =>
          jsOr activeAlert.event (jsOr activeAlert.description "Weather alert active")
        | _ => alertMessage
      some ⟨(temperature : ℚ), alertMessage⟩

def weatherCacheKey : String := "el_paso_weather"
def weatherCacheTTL : ℕ := 15 * 60 * 1000

/-- The documented weather fallback literal. -/
def weatherFallback : WeatherData := ⟨75, "Weather data unavailable"⟩

/-- `getLocalWeather`: same template as the other fetchers. -/
def getLocalWeather (σ : List (String × CacheEntry WeatherData))
    (now : ℕ) (apiKey : Option String) (upstream : WeatherOutcome) :
    Except String WeatherData × List (String × CacheEntry WeatherData) :=
  match SimpleCache.get σ weatherCacheKey now with
  | (some cachedData, σ1) => (.ok cachedData, σ1)
  | (none, σ1) =>
    match apiKey with
    | none => (.error "WEATHER_API_KEY environment variable is required", σ1)
    | some _ =>
      match upstream with
      | .fail => (.ok weatherFallback, σ1)
      | .okBody body =>
        match computeWeather body with
        | none => (.ok weatherFallback, σ1)
        | some result =>
          (.ok result, SimpleCache.set σ1 weatherCacheKey result weatherCacheTTL now)

/-! ## Insight generator: `analyzeInsight` (`fetchInsight.ts`) -/

/-- Outcome of the outbound Claude call as `analyzeInsight` can observe
it: `failure` covers timeout, non-2xx and a 2xx body whose text
`parseClaudeResponse` rejects; `success r` is a 2xx body whose text parsed
and shape-validated to `r` (already trimmed and length-limited). -/
inductive ApiOutcome where
  | failure
  | success (r : InsightResponse)
deriving DecidableEq

/-- Observable effects of one `analyzeInsight` call, in order. -/
inductive InsEvent where
  | cacheGet
  | apiCall
  | cacheSet
deriving DecidableEq, Repr

structure AnalyzeResult where
  resp : InsightResponse
  state : InsightCacheState
  events : List InsEvent
deriving DecidableEq, Repr

/-- The fixed response for input that fails `validateInputData`. -/
def invalidDataResponse : InsightResponse :=
  ⟨"Invalid data provided for analysis.",
   "Please ensure all required data fields are present and valid."⟩

/-! The fixed (summary, recommendation) pairs of the rule-based fallback
branches, written identically in `analyzeInsight`'s `catch` block
(`fetchInsight.ts`) and in `generateFallbackInsight` (`dashboard.ts`). -/

def heatInsight : InsightResponse :=
  ⟨"Extreme heat conditions detected",
   "Consider shifting operations to cooler hours to reduce energy costs"⟩

def energyUpInsight : InsightResponse :=
  ⟨"Energy costs trending upward",
   "Optimize energy usage and consider off-peak scheduling"⟩

def weatherAlertInsight : InsightResponse :=
  ⟨"Weather alert active",
   "Monitor weather conditions and prepare contingency plans"⟩

def productionDownInsight : InsightResponse :=
  ⟨"Production index declining",
   "Review production processes and identify improvement opportunities"⟩

def productionUpInsight : InsightResponse :=
  ⟨"Production performing well",
   "Maintain current efficiency while monitoring energy costs"⟩

def genericInsight : InsightResponse :=
  ⟨"Data analysis temporarily unavailable",
   "Monitor key metrics and adjust operations as needed"⟩

/-- The rule-based contextual fallback written inline in `analyzeInsight`'s
`catch` block: first matching branch of temp ≥ 100 → energy trend up →
alert ≠ 'none' → trend contains ↓ → trend contains ↑ → generic. -/
def fallbackInsightInline (d : InsightInput) : InsightResponse :=
  if d.weather.temp ≥ 100 then heatInsight
  else if d.energy.trend = .up then energyUpInsight
  else if d.weather.alert ≠ "none" then weatherAlertInsight
  else if jsIncludesChar d.production.trend '↓' then productionDownInsight
  else if jsIncludesChar d.production.trend '↑' then productionUpInsight
  else genericInsight

/-- The `catch` block of `analyzeInsight`: the first-inserted entry still
in the cache map if any (`Array.from(cache['cache'].values())[0]?.data` —
no expiry check, no recency ordering), else the inline rule table. -/
def analyzeCatch (σ : InsightCacheState) (d : InsightInput) : InsightResponse :=
  match InsightCache.firstValue σ with
  | some anyCachedInsight => anyCachedInsight
  | none => fallbackInsightInline d

/-- `analyzeInsight(data)`.  Parameters beyond the raw input: the md5
digest, the `CLAUDE_API_KEY` environment value, the outcome of the Claude
call, the module-level cache state and the clock.  The function never
throws: every failure (missing credential — thrown inside the `try` —,
timeout, non-2xx, parse failure) lands in the `catch` block. -/
def analyzeInsight (md5 : String → String) (data : JsValue)
    (apiKey : Option String) (api : ApiOutcome)
    (σ : InsightCacheState) (now : ℕ) : AnalyzeResult :=
  if ¬ validateInputData data then
    ⟨invalidDataResponse, σ, []⟩
  else
    let d := toInsightInput data
    let dataHash := generateDataHash md5 d
    match InsightCache.get σ dataHash now with
    | (some cachedInsight, σ1) => ⟨cachedInsight, σ1, [.cacheGet]⟩
    | (none, σ1) =>
      match apiKey with
      | none => ⟨analyzeCatch σ1 d, σ1, [.cacheGet]⟩
      | some _ =>
        match api with
        | .failure => ⟨analyzeCatch σ1 d, σ1, [.cacheGet, .apiCall]⟩
        | .success parsedInsight =>
          ⟨parsedInsight, InsightCache.set σ1 dataHash parsedInsight now,
           [.cacheGet, .apiCall, .cacheSet]⟩

/-! ## Aggregation handler (`pages/api/dashboard.ts`, `part_002`) -/

/-- The heterogeneous value type of `DashboardCache.dataCache`
(`ProductionData | EnergyData | WeatherData`); the keys `'fred'`, `'eia'`,
`'weather'` keep the variants apart. -/
inductive SourceData where
  | prod (p : ProductionData)
  | energy (e : EnergyData)
  | weather (w : WeatherData)
deriving DecidableEq, Repr

/-- `cached.data as ProductionData` — the unchecked cast the handler
performs on a `'fred'` cache hit (the default arm is unreachable under the
key discipline all reachable states obey). -/
def SourceData.asProd : SourceData → ProductionData
  | .prod p => p
  | _ => ⟨0, ""⟩

def SourceData.asEnergy : SourceData → EnergyData
  | .energy e => e
  | _ => ⟨0, .stable⟩

def SourceData.asWeather : SourceData → WeatherData
  | .weather w => w
  | _ => ⟨0, ""⟩

structure DataCacheEntry where
  data : SourceData
  lastFetched : ℕ
  expires : ℕ
deriving DecidableEq, Repr

structure InsightCacheEntry where
  insight : InsightResponse
  dataHash : String
  lastInsightRun : ℕ
  expires : ℕ
deriving DecidableEq, Repr

structure DashState where
  dataCache : List (String × DataCacheEntry)
  insightCache : List (String × InsightCacheEntry)
deriving DecidableEq, Repr

def FRED_TTL : ℕ := 60 * 60 * 1000
def EIA_TTL : ℕ := 10 * 60 * 1000
def WEATHER_TTL : ℕ := 15 * 60 * 1000
def INSIGHT_TTL : ℕ := 30 * 60 * 1000

/-- `DashboardCache.getTTL`. -/
def DashboardCache.getTTL (source : String) : ℕ :=
  if source = "fred" then FRED_TTL
  else if source = "eia" then EIA_TTL
  else if source = "weather" then WEATHER_TTL
  else EIA_TTL

/-- `DashboardCache.setData`. -/
def DashboardCache.setData (σ : DashState) (key : String) (data : SourceData)
    (ttl now : ℕ) : DashState :=
  { σ with dataCache := mapSet σ.dataCache key ⟨data, now, now + ttl⟩ }

/-- `DashboardCache.getData`: `if (!item || Date.now() > item.expires)
{ delete; return null }` — the delete also runs (as a no-op) when the key
is absent. -/
def DashboardCache.getData (σ : DashState) (key : String) (now : ℕ) :
    Option DataCacheEntry × DashState :=
  match σ.dataCache.lookup key with
  | none => (none, { σ with dataCache := mapDelete σ.dataCache key })
  | some item =>
    if now > item.expires then
      (none, { σ with dataCache := mapDelete σ.dataCache key })
    else (some item, σ)

/-- `DashboardCache.setInsight`. -/
def DashboardCache.setInsight (σ : DashState) (dataHash : String)
    (insight : InsightResponse) (now : ℕ) : DashState :=
  { σ with insightCache :=
      mapSet σ.insightCache dataHash ⟨insight, dataHash, now, now + INSIGHT_TTL⟩ }

/-- `DashboardCache.getInsight`. -/
def DashboardCache.getInsight (σ : DashState) (dataHash : String) (now : ℕ) :
    Option InsightCacheEntry × DashState :=
  match σ.insightCache.lookup dataHash with
  | none => (none, { σ with insightCache := mapDelete σ.insightCache dataHash })
  | some item =>
    if now > item.expires then
      (none, { σ with insightCache := mapDelete σ.insightCache dataHash })
    else (some item, σ)

/-- `DashboardCache.getLatestInsight`: the entry with the strictly largest
`lastInsightRun` (ties and a run stamp of 0 keep the accumulator). -/
def DashboardCache.getLatestInsight (σ : DashState) : Option InsightCacheEntry :=
  (σ.insightCache.foldl
    (fun acc kv =>
      if kv.2.lastInsightRun > acc.2 then (some kv.2, kv.2.lastInsightRun) else acc)
    ((none : Option InsightCacheEntry), 0)).1

/-- Resolution of one fetcher promise as the handler can observe it:
`ok d` — the fetcher resolved with `d` (live data *or* the fetcher's own
internal fallback literal); `err` — the fetcher rejected (its missing-
credential check throws before its `try` block). -/
inductive SourceOutcome where
  | ok (d : SourceData)
  | err
deriving DecidableEq

/-- `fetchWithCache(source, fetchFn, fallback)`: fresh cache value, else
run the fetch — caching and re-reading a success (so `lastFetched` is the
just-written stamp), stamping a rejection with `new Date()` and the
fallback argument.  Never rejects. -/
def fetchWithCache (σ : DashState) (now : ℕ) (source : String)
    (outcome : SourceOutcome) (fallback : SourceData) :
    (SourceData × ℕ) × DashState :=
  match DashboardCache.getData σ source now with
  | (some cached, σ1) => ((cached.data, cached.lastFetched), σ1)
  | (none, σ1) =>
    match outcome with
    | .ok data =>
      let σ2 := DashboardCache.setData σ1 source data (DashboardCache.getTTL source) now
      ((data, now), σ2)
    | .err => ((fallback, now), σ1)

/-- The fallback literals `fetchAllData` passes to `fetchWithCache` (and
repeats in its dead `rejected` arms — `fetchWithCache` never rejects). -/
def fredHandlerFallback : SourceData := .prod ⟨102.4, "→ Data unavailable"⟩
def eiaHandlerFallback : SourceData := .energy ⟨12.5, .stable⟩
def weatherHandlerFallback : SourceData := .weather ⟨75, "Weather data unavailable"⟩

structure FetchAllResult where
  production : ProductionData
  energy : EnergyData
  weather : WeatherData
  lastFetched : ℕ
deriving DecidableEq, Repr

/-- `fetchAllData`: the three `fetchWithCache` calls (concurrent in the
source, over disjoint keys — threaded here in order), then `lastFetched` =
`Math.max` over the three timestamps.  All three promises fulfill, so the
`timestamps` list is never filtered down and the `rejected` fallback arms
are dead. -/
def fetchAllData (σ : DashState) (now : ℕ)
    (oFred oEia oWeather : SourceOutcome) : FetchAllResult × DashState :=
  let (pr, σ1) := fetchWithCache σ now "fred" oFred fredHandlerFallback
  let (er, σ2) := fetchWithCache σ1 now "eia" oEia eiaHandlerFallback
  let (wr, σ3) := fetchWithCache σ2 now "weather" oWeather weatherHandlerFallback
  (⟨pr.1.asProd, er.1.asEnergy, wr.1.asWeather,
    max pr.2 (max er.2 wr.2)⟩, σ3)

/-- `generateFallbackInsight` of `dashboard.ts`: the same rule table as
`fallbackInsightInline`, except that the weather-alert branch also skips
the `'Weather data unavailable'` fallback sentinel. -/
def generateFallbackInsight (production : ProductionData) (energy : EnergyData)
    (weather : WeatherData) : InsightResponse :=
  if weather.temp ≥ 100 then heatInsight
  else if energy.trend = .up then energyUpInsight
  else if weather.alert ≠ "none" ∧ weather.alert ≠ "Weather data unavailable" then
    weatherAlertInsight
  else if jsIncludesChar production.trend '↓' then productionDownInsight
  else if jsIncludesChar production.trend '↑' then productionUpInsight
  else genericInsight

structure DashboardData where
  production : ProductionData
  energy : EnergyData
  weather : WeatherData
  insight : InsightResponse
deriving DecidableEq, Repr

structure DashboardResponse where
  data : DashboardData
  lastFetched : ℕ
  lastInsightRun : Option ℕ
deriving DecidableEq, Repr

structure HandlerResult where
  status : ℕ
  body : DashboardResponse
deriving DecidableEq, Repr

/-- One request's inputs: a normal execution with the query flag and the
observable outcomes of the four outbound calls, or an unexpected exception
thrown anywhere inside the `try` block. -/
inductive HandlerRun where
  | normal (isManualRefresh : Bool) (oFred oEia oWeather : SourceOutcome)
      (claudeKey : Option String) (api : ApiOutcome)
  | crash
deriving DecidableEq

/-- The fully-static snapshot the handler's top-level `catch` responds
with (note its weather alert literal `'Data unavailable'` differs from the
fetch-path literal). -/
def crashFallbackResponse (now : ℕ) : DashboardResponse :=
  { data :=
      { production := ⟨102.4, "→ Data unavailable"⟩
        energy := ⟨12.5, .stable⟩
        weather := ⟨75, "Data unavailable"⟩
        insight := ⟨"System temporarily unavailable",
                    "Please try refreshing in a few minutes"⟩ }
    lastFetched := now
    lastInsightRun := none }

/-- The dashboard API `handler`.  The inner `try` around `analyzeInsight`
is dead code — the embedded `analyzeInsight` is total, exactly as the
source function catches every failure internally — so the
`cache.getLatestInsight()` fallback chain is unreachable and the insight
returned by `analyzeInsight` (whatever it is) is always stored with
`cache.setInsight`.  The source's single
`needsInsightUpdate = isManualRefresh || !cachedInsight` branch is split
into its two reachable update cases (manual refresh with a cache hit, and
a cache miss), each with the same regeneration block.  Returns the HTTP
result plus the final handler cache and `fetchInsight` module cache
states. -/
def handler (sha1 md5 : String → String) (run : HandlerRun)
    (σ : DashState) (σins : InsightCacheState) (now : ℕ) :
    HandlerResult × DashState × InsightCacheState :=
  match run with
  | .crash => (⟨200, crashFallbackResponse now⟩, σ, σins)
  | .normal isManualRefresh oFred oEia oWeather claudeKey api =>
    let (all, σ1) := fetchAllData σ now oFred oEia oWeather
    let currentDataHash := generateDataHashApi sha1 all.production all.energy all.weather
    let (cachedInsight, σ2) := DashboardCache.getInsight σ1 currentDataHash now
    match cachedInsight with
    | some entry =>
      if isManualRefresh then
        let r := analyzeInsight md5 (toJsValue all.production all.energy all.weather)
                   claudeKey api σins now
        let σ3 := DashboardCache.setInsight σ2 currentDataHash r.resp now
        let (newCachedInsight, σ4) := DashboardCache.getInsight σ3 currentDataHash now
        let lastInsightRun := match newCachedInsight with
          | some e => some e.lastInsightRun
          | none => some now
        (⟨200, ⟨⟨all.production, all.energy, all.weather, r.resp⟩,
                all.lastFetched, lastInsightRun⟩⟩, σ4, r.state)
      else
        (⟨200, ⟨⟨all.production, all.energy, all.weather, entry.insight⟩,
                all.lastFetched, some entry.lastInsightRun⟩⟩, σ2, σins)
    | none =>
      let r := analyzeInsight md5 (toJsValue all.production all.energy all.weather)
                 claudeKey api σins now
      let σ3 := DashboardCache.setInsight σ2 currentDataHash r.resp now
      let (newCachedInsight, σ4) := DashboardCache.getInsight σ3 currentDataHash now
      let lastInsightRun := match newCachedInsight with
        | some e => some e.lastInsightRun
        | none => some now
      (⟨200, ⟨⟨all.production, all.energy, all.weather, r.resp⟩,
              all.lastFetched, lastInsightRun⟩⟩, σ4, r.state)

/-! ## Association-list lemmas -/

theorem lookup_mapSet_self {V : Type} (l : List (String × V)) (k : String) (v : V) :
    (mapSet l k v).lookup k = some v := by
  induction l with
  | nil => simp [mapSet, List.lookup]
  | cons hd tl ih =>
    obtain ⟨k0, v0⟩ := hd
    by_cases h : k0 = k
    · simp [mapSet, h, List.lookup]
    · have hne : (k == k0) = false := by
        simp only [beq_eq_false_iff_ne, ne_eq]
        exact fun hk => h hk.symm
      simp [mapSet, h, List.lookup, hne, ih]

theorem mem_mapSet {V : Type} {k : String} {v : V} {kv : String × V} :
    ∀ {l : List (String × V)}, kv ∈ mapSet l k v → kv ∈ l ∨ kv = (k, v) := by
  intro l
  induction l with
  | nil => intro h; simp [mapSet] at h; simp [h]
  | cons hd tl ih =>
    obtain ⟨k0, v0⟩ := hd
    intro h
    by_cases hk : k0 = k
    · simp only [mapSet, if_pos hk, List.mem_cons] at h
      rcases h with h | h
      · right; exact h
      · left; exact List.mem_cons_of_mem _ h
    · simp only [mapSet, if_neg hk, List.mem_cons] at h
      rcases h with h | h
      · left; simp [h]
      · rcases ih h with h2 | h2
        · left; exact List.mem_cons_of_mem _ h2
        · right; exact h2

theorem mapDelete_sublist {V : Type} (l : List (String × V)) (k : String) :
    (mapDelete l k).Sublist l := by
  induction l with
  | nil => simp [mapDelete]
  | cons hd tl ih =>
    obtain ⟨k0, v0⟩ := hd
    by_cases h : k0 = k
    · simp only [mapDelete, if_pos h]
      exact List.sublist_cons_of_sublist _ (List.Sublist.refl tl)
    · simp only [mapDelete, if_neg h]
      exact List.Sublist.cons₂ _ ih

theorem mem_of_mem_mapDelete {V : Type} {l : List (String × V)} {k : String}
    {kv : String × V} (h : kv ∈ mapDelete l k) : kv ∈ l :=
  (mapDelete_sublist l k).mem h

theorem keys_mapSet_subset {V : Type} (l : List (String × V)) (k : String) (v : V) :
    ∀ k2, k2 ∈ (mapSet l k v).map Prod.fst → k2 ∈ l.map Prod.fst ∨ k2 = k := by
  intro k2 h
  simp only [List.mem_map] at h
  obtain ⟨kv, hkv, rfl⟩ := h
  rcases mem_mapSet hkv with h2 | h2
  · left; exact List.mem_map_of_mem _ h2
  · right; simp [h2]

theorem keys_nodup_mapSet {V : Type} {k : String} {v : V} :
    ∀ {l : List (String × V)},
      (l.map Prod.fst).Nodup → ((mapSet l k v).map Prod.fst).Nodup := by
  intro l
  induction l with
  | nil => intro _; simp [mapSet]
  | cons hd tl ih =>
    obtain ⟨k0, v0⟩ := hd
    intro h
    simp only [List.map_cons, List.nodup_cons] at h
    by_cases hk : k0 = k
    · subst hk
      simpa [mapSet] using h
    · simp only [mapSet, if_neg hk, List.map_cons, List.nodup_cons]
      refine ⟨fun hc => ?_, ih h.2⟩
      rcases keys_mapSet_subset tl k v k0 hc with h2 | h2
      · exact h.1 h2
      · exact hk h2

theorem lookup_none_of_key_not_mem {V : Type} {k : String} :
    ∀ {m : List (String × V)}, k ∉ m.map Prod.fst → m.lookup k = none := by
  intro m
  induction m with
  | nil => intro _; simp [List.lookup]
  | cons hd tl ih =>
    obtain ⟨k1, v1⟩ := hd
    intro hm
    simp only [List.map_cons, List.mem_cons] at hm
    push_neg at hm
    have hne : (k == k1) = false := by
      simp only [beq_eq_false_iff_ne, ne_eq]
      exact hm.1
    simp [List.lookup, hne, ih hm.2]

theorem lookup_mapDelete_self {V : Type} {k : String} :
    ∀ {l : List (String × V)},
      (l.map Prod.fst).Nodup → (mapDelete l k).lookup k = none := by
  intro l
  induction l with
  | nil => intro _; simp [mapDelete, List.lookup]
  | cons hd tl ih =>
    obtain ⟨k0, v0⟩ := hd
    intro h
    simp only [List.map_cons, List.nodup_cons] at h
    by_cases hk : k0 = k
    · subst hk
      simp only [mapDelete, if_pos rfl]
      exact lookup_none_of_key_not_mem h.1
    · have hne : (k == k0) = false := by
        simp only [beq_eq_false_iff_ne, ne_eq]
        exact fun hc => hk hc.symm
      simp [mapDelete, hk, List.lookup, hne, ih h.2]

/-- Decidable equality for `Except` results, so concrete fetcher runs can
be checked by `decide`. -/
instance {E A : Type} [DecidableEq E] [DecidableEq A] : DecidableEq (Except E A) :=
  fun x y =>
    match x, y with
    | .ok a, .ok b =>
      if h : a = b then isTrue (by rw [h]) else isFalse (by simp [h])
    | .error a, .error b =>
      if h : a = b then isTrue (by rw [h]) else isFalse (by simp [h])
    | .ok _, .error _ => isFalse (by simp)
    | .error _, .ok _ => isFalse (by simp)

/-! ## Claim C3 — TTL cache semantics -/

theorem simpleCache_get_set_fresh {V : Type} (σ : List (String × CacheEntry V))
    (k : String) (v : V) (T t0 now : ℕ) (h : now ≤ t0 + T) :
    (SimpleCache.get (SimpleCache.set σ k v T t0) k now).1 = some v := by
  have hl := lookup_mapSet_self σ k (⟨v, t0 + T⟩ : CacheEntry V)
  have hn : ¬ now > t0 + T := by omega
  simp [SimpleCache.get, SimpleCache.set, hl, hn]

theorem simpleCache_get_set_stale {V : Type} (σ : List (String × CacheEntry V))
    (k : String) (v : V) (T t0 now : ℕ)
    (hnd : (σ.map Prod.fst).Nodup) (h : now > t0 + T) :
    (SimpleCache.get (SimpleCache.set σ k v T t0) k now).1 = none ∧
    (SimpleCache.get
      (SimpleCache.get (SimpleCache.set σ k v T t0) k now).2 k now).1 = none := by
  have hl := lookup_mapSet_self σ k (⟨v, t0 + T⟩ : CacheEntry V)
  constructor
  · simp [SimpleCache.get, SimpleCache.set, hl, h]
  · have hdel : (mapDelete (mapSet σ k (⟨v, t0 + T⟩ : CacheEntry V)) k).lookup k = none :=
      lookup_mapDelete_self (keys_nodup_mapSet hnd)
    simp [SimpleCache.get, SimpleCache.set, hl, h, hdel]

/-- C3: after `set(k, v, T)` at `t0`, `get(k)` returns `v` while
`now - t0 < T` — in fact up to and including `now - t0 = T` — and reports
absent strictly past that, deleting the entry so that a second `get`
without an intervening `set` also reports absent.  Amended from the claim:
the absence boundary is `now - t0 > T`, not `now - t0 ≥ T`, because both
`SimpleCache.get` and `InsightCache.get` expire with `Date.now() > expires`
(see `claim_C3_counterexample`).  Stated for the generic `SimpleCache` of
the fetcher modules and for the `InsightCache` of `fetchInsight.ts`, whose
`set` fixes `T = insightCacheTTL`. -/
theorem claim_C3_theorem {V : Type} (σ : List (String × CacheEntry V))
    (σi : InsightCacheState) (k : String) (v : V) (r : InsightResponse)
    (T t0 now : ℕ)
    (hnd : (σ.map Prod.fst).Nodup) (hndi : (σi.map Prod.fst).Nodup) :
    (now ≤ t0 + T →
      (SimpleCache.get (SimpleCache.set σ k v T t0) k now).1 = some v) ∧
    (now > t0 + T →
      (SimpleCache.get (SimpleCache.set σ k v T t0) k now).1 = none ∧
      (SimpleCache.get
        (SimpleCache.get (SimpleCache.set σ k v T t0) k now).2 k now).1 = none) ∧
    (now ≤ t0 + insightCacheTTL →
      (InsightCache.get (InsightCache.set σi k r t0) k now).1 = some r) ∧
    (now > t0 + insightCacheTTL →
      (InsightCache.get (InsightCache.set σi k r t0) k now).1 = none ∧
      (InsightCache.get
        (InsightCache.get (InsightCache.set σi k r t0) k now).2 k now).1 = none) :=
  ⟨fun h => simpleCache_get_set_fresh σ k v T t0 now h,
   fun h => simpleCache_get_set_stale σ k v T t0 now hnd h,
   fun h => simpleCache_get_set_fresh σi k r insightCacheTTL t0 now h,
   fun h => simpleCache_get_set_stale σi k r insightCacheTTL t0 now hndi h⟩

/-- C3 counterexample: a value set at `t0 = 0` with `ttl = 10` is still
returned by `get` at `now = 10`, i.e. at `now - t0 = T` exactly, where the
claim requires it to be reported absent (`now - t0 ≥ T`). -/
theorem claim_C3_counterexample :
    (SimpleCache.get
      (SimpleCache.set ([] : List (String × CacheEntry ℕ)) "k" 7 10 0) "k" 10).1
      = some 7 ∧ 10 - 0 ≥ 10 := by
  decide

theorem claim_C3_witness :
    ((SimpleCache.get
        (SimpleCache.set ([] : List (String × CacheEntry ℕ)) "k" 3 10 0) "k" 4).1
      = some 3) ∧
    ((SimpleCache.get
        (SimpleCache.set ([] : List (String × CacheEntry ℕ)) "k" 3 10 0) "k" 11).1
      = none) ∧
    ((InsightCache.get (InsightCache.set [] "h" ⟨"s", "r"⟩ 0) "h" 1800001).1
      = none) :=
  ⟨(claim_C3_theorem ([] : List (String × CacheEntry ℕ)) [] "k" 3 ⟨"s", "r"⟩
      10 0 4 (by decide) (by decide)).1 (by decide),
   ((claim_C3_theorem ([] : List (String × CacheEntry ℕ)) [] "k" 3 ⟨"s", "r"⟩
      10 0 11 (by decide) (by decide)).2.1 (by decide)).1,
   ((claim_C3_theorem ([] : List (String × CacheEntry ℕ)) [] "h" 3 ⟨"s", "r"⟩
      10 0 1800001 (by decide) (by decide)).2.2.2 (by decide)).1⟩

/-! ## Claim C7 — fingerprint stability -/

/-- C7: for any two metric triples whose normalized projections agree
(index to 1 decimal, price to 2 decimals, temperature to the nearest 5
degrees, trend/alert strings verbatim), both copies of the Data-Hash
function produce the identical fingerprint; the function is pure — a plain
function of its input — by construction of the embedding.  (The proof goes
through `dataString_constant`: the replacer array filters out every nested
key, so the serialized string — hence the digest — is in fact the same for
*all* inputs, which makes the claimed stability hold a fortiori.) -/
theorem claim_C7_theorem (md5 sha1 : String → String) (d1 d2 : InsightInput)
    (h : round1 d1.production.index = round1 d2.production.index ∧
         d1.production.trend = d2.production.trend ∧
         round2 d1.energy.centsPerKwh = round2 d2.energy.centsPerKwh ∧
         d1.energy.trend = d2.energy.trend ∧
         roundTo5 d1.weather.temp = roundTo5 d2.weather.temp ∧
         d1.weather.alert = d2.weather.alert) :
    generateDataHash md5 d1 = generateDataHash md5 d2 ∧
    generateDataHashApi sha1 d1.production d1.energy d1.weather
      = generateDataHashApi sha1 d2.production d2.energy d2.weather := by
  constructor
  · unfold generateDataHash
    rw [dataString_constant, dataString_constant]
  · unfold generateDataHashApi
    rw [dataString_constant, dataString_constant]

theorem claim_C7_witness :
    generateDataHash (fun s => s)
        ⟨⟨102.44, "↑ 1.0% MoM"⟩, ⟨12.501, .up⟩, ⟨103, "none"⟩⟩
      = generateDataHash (fun s => s)
        ⟨⟨102.41, "↑ 1.0% MoM"⟩, ⟨12.499, .up⟩, ⟨104, "none"⟩⟩ ∧
    generateDataHashApi (fun s => s) ⟨102.44, "↑ 1.0% MoM"⟩ ⟨12.501, .up⟩ ⟨103, "none"⟩
      = generateDataHashApi (fun s => s) ⟨102.41, "↑ 1.0% MoM"⟩ ⟨12.499, .up⟩ ⟨104, "none"⟩ :=
  claim_C7_theorem (fun s => s) (fun s => s)
    ⟨⟨102.44, "↑ 1.0% MoM"⟩, ⟨12.501, .up⟩, ⟨103, "none"⟩⟩
    ⟨⟨102.41, "↑ 1.0% MoM"⟩, ⟨12.499, .up⟩, ⟨104, "none"⟩⟩
    (by refine ⟨by decide, rfl, by decide, rfl, by decide, rfl⟩)

/-! ## Claim C8 — rule-based fallback priority order -/

/-- C8: both copies of the rule-based fallback choose the first matching
branch of the fixed priority order — temperature ≥ 100, then energy trend
up, then active weather alert, then production trend down (`↓` in the
trend label), then production trend up (`↑`), else the generic pair — each
branch returning its fixed (summary, recommendation) pair.  The two copies
differ only in what counts as an active alert: `generateFallbackInsight`
(`dashboard.ts`) also excludes the `'Weather data unavailable'` fallback
sentinel, while the inline table of `analyzeInsight`'s `catch` block
treats any alert other than `'none'` as active. -/
theorem claim_C8_theorem (p : ProductionData) (e : EnergyData) (w : WeatherData) :
    (w.temp ≥ 100 →
      generateFallbackInsight p e w = heatInsight ∧
      fallbackInsightInline ⟨p, e, w⟩ = heatInsight) ∧
    (w.temp < 100 → e.trend = .up →
      generateFallbackInsight p e w = energyUpInsight ∧
      fallbackInsightInline ⟨p, e, w⟩ = energyUpInsight) ∧
    (w.temp < 100 → e.trend ≠ .up →
      w.alert ≠ "none" → w.alert ≠ "Weather data unavailable" →
      generateFallbackInsight p e w = weatherAlertInsight) ∧
    (w.temp < 100 → e.trend ≠ .up → w.alert ≠ "none" →
      fallbackInsightInline ⟨p, e, w⟩ = weatherAlertInsight) ∧
    (w.temp < 100 → e.trend ≠ .up → w.alert = "none" →
      jsIncludesChar p.trend '↓' = true →
      generateFallbackInsight p e w = productionDownInsight ∧
      fallbackInsightInline ⟨p, e, w⟩ = productionDownInsight) ∧
    (w.temp < 100 → e.trend ≠ .up → w.alert = "none" →
      jsIncludesChar p.trend '↓' = false → jsIncludesChar p.trend '↑' = true →
      generateFallbackInsight p e w = productionUpInsight ∧
      fallbackInsightInline ⟨p, e, w⟩ = productionUpInsight) ∧
    (w.temp < 100 → e.trend ≠ .up → w.alert = "none" →
      jsIncludesChar p.trend '↓' = false → jsIncludesChar p.trend '↑' = false →
      generateFallbackInsight p e w = genericInsight ∧
      fallbackInsightInline ⟨p, e, w⟩ = genericInsight) := by
  refine ⟨fun h1 => ?_, fun h1 h2 => ?_, fun h1 h2 h3 h4 => ?_,
          fun h1 h2 h3 => ?_, fun h1 h2 h3 h4 => ?_,
          fun h1 h2 h3 h4 h5 => ?_, fun h1 h2 h3 h4 h5 => ?_⟩ <;>
    simp_all [generateFallbackInsight, fallbackInsightInline, not_le.mpr]

/-- C8 witness: a triple with temperature 104 °F and energy trend `up`
selects the extreme-heat branch of both tables (the sample data of the
stub endpoint `part_003`). -/
theorem claim_C8_witness :
    generateFallbackInsight ⟨102.4, "↑ 0.5% MoM"⟩ ⟨9.1, .up⟩ ⟨104, "Heat wave warning"⟩
      = heatInsight ∧
    fallbackInsightInline
        ⟨⟨102.4, "↑ 0.5% MoM"⟩, ⟨9.1, .up⟩, ⟨104, "Heat wave warning"⟩⟩
      = heatInsight :=
  (claim_C8_theorem ⟨102.4, "↑ 0.5% MoM"⟩ ⟨9.1, .up⟩ ⟨104, "Heat wave warning"⟩).1
    (by decide)

/-! ## Claim C10 — invalid input short-circuits `analyzeInsight` -/

/-- C10: for every input that fails `validateInputData` (not a truthy
object, missing or non-numeric `production.index` / `energy.centsPerKwh` /
`weather.temp`, `energy.trend` outside `up`/`down`/`stable`, or
non-string `production.trend` / `weather.alert`), `analyzeInsight`
returns exactly the fixed invalid-data pair, leaves the insight cache
untouched, and performs no cache read, no cache write and no outbound
API call (an empty event trace). -/
theorem claim_C10_theorem (md5 : String → String) (data : JsValue)
    (apiKey : Option String) (api : ApiOutcome)
    (σ : InsightCacheState) (now : ℕ)
    (h : validateInputData data = false) :
    analyzeInsight md5 data apiKey api σ now = ⟨invalidDataResponse, σ, []⟩ := by
  unfold analyzeInsight
  simp [h]

/-- C10 witness: a `production.index` that is a string (`'102.4'`) fails
validation; the call returns the fixed pair, the pre-existing cache entry
survives untouched, and no events fire. -/
theorem claim_C10_witness :
    analyzeInsight (fun s => s)
        (.vobj (.cons "production"
                  (.vobj (.cons "index" (.vstr "102.4")
                         (.cons "trend" (.vstr "↑ 1.0% MoM") .nil)))
               (.cons "energy"
                  (.vobj (.cons "centsPerKwh" (.vnum 12.5)
                         (.cons "trend" (.vstr "up") .nil)))
               (.cons "weather"
                  (.vobj (.cons "temp" (.vnum 95)
                         (.cons "alert" (.vstr "none") .nil)))
                .nil))))
        (some "key") (.success ⟨"a", "b"⟩)
        [("h0", ⟨⟨"cached s", "cached r"⟩, 99⟩)] 5
      = ⟨invalidDataResponse, [("h0", ⟨⟨"cached s", "cached r"⟩, 99⟩)], []⟩ :=
  claim_C10_theorem (fun s => s) _ (some "key") (.success ⟨"a", "b"⟩)
    [("h0", ⟨⟨"cached s", "cached r"⟩, 99⟩)] 5 (by decide)

/-! ## Claim C5 — fetcher fallback literals -/

/-- C5: on every runtime upstream failure — a failed request (timeout,
non-2xx, unparseable JSON), or a 2xx body whose shape checks fail inside
the `try` block (`computeProduction` / `computeEnergy` / `computeWeather`
returning `none` models the thrown error) — each fetcher returns exactly
its documented fallback literal as a normal value (`Except.ok`, never an
error), provided its cache misses and its credential is present (a missing
credential is checked before the `try` and *throws*, which the claim and
spec treat as a distinct fatal misconfiguration). -/
theorem claim_C5_theorem
    (σp : List (String × CacheEntry ProductionData))
    (σe : List (String × CacheEntry EnergyData))
    (σw : List (String × CacheEntry WeatherData))
    (now : ℕ) (kp ke kw : String)
    (obs : Option (List FredObservation))
    (body : Option (List (Option (List EiaPoint))))
    (wb : WeatherBody)
    (hp : (SimpleCache.get σp fredCacheKey now).1 = none)
    (he : (SimpleCache.get σe eiaCacheKey now).1 = none)
    (hw : (SimpleCache.get σw weatherCacheKey now).1 = none) :
    ((getProductionIndex σp now (some kp) .fail).1 = .ok productionFallback) ∧
    (computeProduction obs = none →
      (getProductionIndex σp now (some kp) (.okBody obs)).1 = .ok productionFallback) ∧
    ((getEnergyPrice σe now (some ke) .fail).1 = .ok energyFallback) ∧
    (computeEnergy body = none →
      (getEnergyPrice σe now (some ke) (.okBody body)).1 = .ok energyFallback) ∧
    ((getLocalWeather σw now (some kw) .fail).1 = .ok weatherFallback) ∧
    (computeWeather wb = none →
      (getLocalWeather σw now (some kw) (.okBody wb)).1 = .ok weatherFallback) := by
  rcases hp2 : SimpleCache.get σp fredCacheKey now with ⟨op, σp1⟩
  rw [hp2] at hp; simp only at hp; subst hp
  rcases he2 : SimpleCache.get σe eiaCacheKey now with ⟨oe, σe1⟩
  rw [he2] at he; simp only at he; subst he
  rcases hw2 : SimpleCache.get σw weatherCacheKey now with ⟨ow, σw1⟩
  rw [hw2] at hw; simp only at hw; subst hw
  refine ⟨?_, fun hc => ?_, ?_, fun hc => ?_, ?_, fun hc => ?_⟩
  · simp [getProductionIndex, hp2]
  · simp [getProductionIndex, hp2, hc]
  · simp [getEnergyPrice, he2]
  · simp [getEnergyPrice, he2, hc]
  · simp [getLocalWeather, hw2]
  · simp [getLocalWeather, hw2, hc]

/-- C5 witness: with empty caches and credentials present, a failed
request and a shape-mismatched body (no observations / no series / a body
without a usable temperature) each produce exactly the documented fallback
literal from every fetcher, as a normal return. -/
theorem claim_C5_witness :
    ((getProductionIndex [] 0 (some "fk") .fail).1 = .ok productionFallback) ∧
    ((getProductionIndex [] 0 (some "fk") (.okBody (some []))).1 = .ok productionFallback) ∧
    ((getEnergyPrice [] 0 (some "ek") .fail).1 = .ok energyFallback) ∧
    ((getEnergyPrice [] 0 (some "ek") (.okBody (some []))).1 = .ok energyFallback) ∧
    ((getLocalWeather [] 0 (some "wk") .fail).1 = .ok weatherFallback) ∧
    ((getLocalWeather [] 0 (some "wk") (.okBody ⟨none, [], none⟩)).1 = .ok weatherFallback) := by
  have h := claim_C5_theorem [] [] [] 0 "fk" "ek" "wk"
    (some []) (some []) ⟨none, [], none⟩ (by decide) (by decide) (by decide)
  exact ⟨h.1, h.2.1 (by decide), h.2.2.1, h.2.2.2.1 (by decide),
         h.2.2.2.2.1, h.2.2.2.2.2 (by decide)⟩

/-! ## Claim C6 — weather alert derivation -/

/-- C6 (amended): on a successful weather fetch the alert is `"none"`
unless (a) the first reported condition's id is in the fixed severe set,
or (b) the conditions array is nonempty *and* the rounded temperature is
≥ 100 °F (extreme heat) or ≤ 32 °F (freezing), or (c) the upstream body
carries a nonempty `alerts` array — and a nonempty upstream alert always
wins over any locally derived alert.  Amended from the claim: the
temperature thresholds are evaluated only inside the
`if (data.weather && data.weather.length > 0)` block, so a successful
response with an empty conditions array yields `"none"` even at ≥ 100 °F
(see `claim_C6_counterexample`); and only the *first* condition's id is
tested. -/
theorem claim_C6_theorem (σ : List (String × CacheEntry WeatherData))
    (now : ℕ) (key : String) (b : WeatherBody) (t : ℚ)
    (htemp : b.temp = some t) (ht0 : t ≠ 0)
    (hmiss : (SimpleCache.get σ weatherCacheKey now).1 = none) :
    ((b.alerts = none ∨ b.alerts = some []) → b.weather = [] →
      computeWeather b = some ⟨(jsRound t : ℚ), "none"⟩) ∧
    (∀ c cs, b.weather = c :: cs → (b.alerts = none ∨ b.alerts = some []) →
      severeWeatherIds.contains c.id = false →
      32 < jsRound t → jsRound t < 100 →
      computeWeather b = some ⟨(jsRound t : ℚ), "none"⟩) ∧
    (∀ c cs, b.weather = c :: cs → (b.alerts = none ∨ b.alerts = some []) →
      jsRound t ≥ 100 →
      computeWeather b = some ⟨(jsRound t : ℚ), "Extreme heat warning"⟩) ∧
    (∀ c cs, b.weather = c :: cs → (b.alerts = none ∨ b.alerts = some []) →
      jsRound t ≤ 32 →
      computeWeather b = some ⟨(jsRound t : ℚ), "Freezing temperature alert"⟩) ∧
    (∀ c cs, b.weather = c :: cs → (b.alerts = none ∨ b.alerts = some []) →
      severeWeatherIds.contains c.id = true →
      32 < jsRound t → jsRound t < 100 →
      computeWeather b = some ⟨(jsRound t : ℚ), c.main ++ ": " ++ c.description⟩) ∧
    (∀ a as, b.alerts = some (a :: as) →
      computeWeather b =
        some ⟨(jsRound t : ℚ), jsOr a.event (jsOr a.description "Weather alert active")⟩) ∧
    (∀ r, computeWeather b = some r →
      (getLocalWeather σ now (some key) (.okBody b)).1 = .ok r) := by
  refine ⟨fun ha hw => ?_, fun c cs hw ha hsev h32 h100 => ?_,
          fun c cs hw ha h100 => ?_, fun c cs hw ha h32 => ?_,
          fun c cs hw ha hsev h32 h100 => ?_, fun a as ha => ?_,
          fun r hr => ?_⟩
  · rcases ha with ha | ha <;> simp [computeWeather, htemp, ht0, hw, ha]
  · have hn100 : ¬ jsRound t ≥ 100 := by omega
    have hn32 : ¬ jsRound t ≤ 32 := by omega
    have hsev2 : c.id ∉ severeWeatherIds := by simpa using hsev
    rcases ha with ha | ha <;>
      simp [computeWeather, htemp, ht0, hw, ha, hsev2, hn100, hn32]
  · rcases ha with ha | ha <;>
      simp [computeWeather, htemp, ht0, hw, ha, h100]
  · have hn100 : ¬ jsRound t ≥ 100 := by omega
    rcases ha with ha | ha <;>
      simp [computeWeather, htemp, ht0, hw, ha, h32, hn100]
  · have hn100 : ¬ jsRound t ≥ 100 := by omega
    have hn32 : ¬ jsRound t ≤ 32 := by omega
    have hsev2 : c.id ∈ severeWeatherIds := by simpa using hsev
    rcases ha with ha | ha <;>
      simp [computeWeather, htemp, ht0, hw, ha, hsev2, hn100, hn32]
  · simp [computeWeather, htemp, ht0, ha]
  · rcases hm : SimpleCache.get σ weatherCacheKey now with ⟨o, σ1⟩
    rw [hm] at hmiss; simp only at hmiss; subst hmiss
    simp [getLocalWeather, hm, hr]

/-- C6 counterexample: a successful upstream body with temperature 105 °F
but an *empty* conditions array (and no alerts) produces alert `"none"`,
where the claim requires the extreme-heat alert whenever the rounded
temperature is ≥ 100 °F; the fetcher serves and caches that value. -/
theorem claim_C6_counterexample :
    computeWeather ⟨some 105, [], none⟩ = some ⟨105, "none"⟩ ∧
    (jsRound 105 ≥ 100) ∧
    ((getLocalWeather [] 0 (some "wk") (.okBody ⟨some 105, [], none⟩)).1
      = .ok ⟨105, "none"⟩) ∧
    ("none" : String) ≠ "Extreme heat warning" := by
  refine ⟨by decide, by decide, ?_, by decide⟩
  decide

/-- C6 witness: with a nonempty conditions array, 104.6 °F rounds to
105 ≥ 100 and yields the extreme-heat alert, which wins over the severe
condition id; and an upstream alert, when present, wins over both. -/
theorem claim_C6_witness :
    computeWeather ⟨some 104.6, [⟨211, "Thunderstorm", "thunderstorm"⟩], none⟩
      = some ⟨105, "Extreme heat warning"⟩ ∧
    computeWeather ⟨some 104.6, [⟨211, "Thunderstorm", "thunderstorm"⟩],
        some [⟨"Dust Storm Warning", "blowing dust"⟩]⟩
      = some ⟨105, "Dust Storm Warning"⟩ ∧
    (getLocalWeather [] 0 (some "wk")
        (.okBody ⟨some 104.6, [⟨211, "Thunderstorm", "thunderstorm"⟩], none⟩)).1
      = .ok ⟨105, "Extreme heat warning"⟩ := by
  have h1 := claim_C6_theorem [] 0 "wk"
    ⟨some 104.6, [⟨211, "Thunderstorm", "thunderstorm"⟩], none⟩ 104.6
    (by decide) (by decide) (by decide)
  have h2 := claim_C6_theorem [] 0 "wk"
    ⟨some 104.6, [⟨211, "Thunderstorm", "thunderstorm"⟩],
      some [⟨"Dust Storm Warning", "blowing dust"⟩]⟩ 104.6
    (by decide) (by decide) (by decide)
  have e1 : computeWeather ⟨some 104.6, [⟨211, "Thunderstorm", "thunderstorm"⟩], none⟩
      = some ⟨105, "Extreme heat warning"⟩ := by
    have := h1.2.2.1 ⟨211, "Thunderstorm", "thunderstorm"⟩ [] rfl (Or.inl rfl) (by decide)
    simpa using this
  have e2 : computeWeather ⟨some 104.6, [⟨211, "Thunderstorm", "thunderstorm"⟩],
        some [⟨"Dust Storm Warning", "blowing dust"⟩]⟩
      = some ⟨105, "Dust Storm Warning"⟩ := by
    have := h2.2.2.2.2.2.1 ⟨"Dust Storm Warning", "blowing dust"⟩ [] rfl
    simpa [jsOr] using this
  exact ⟨e1, e2, h1.2.2.2.2.2.2 _ e1⟩

/-! ## Claim C4 — the handler always answers 200 with a full payload -/

/-- C4: for every request — including one in which an unexpected exception
is thrown inside the handler's `try` block (`HandlerRun.crash`) — the
handler responds with HTTP 200 and a structurally complete
`DashboardResponse` (all four metrics and both timestamps are mandatory
fields of the type it returns); on the exception path the payload is
exactly the fully-static fallback snapshot, whose `lastInsightRun` is
`null`. -/
theorem claim_C4_theorem (sha1 md5 : String → String) (run : HandlerRun)
    (σ : DashState) (σins : InsightCacheState) (now : ℕ) :
    (handler sha1 md5 run σ σins now).1.status = 200 ∧
    (handler sha1 md5 .crash σ σins now).1 = ⟨200, crashFallbackResponse now⟩ ∧
    (crashFallbackResponse now).lastInsightRun = none := by
  refine ⟨?_, rfl, rfl⟩
  cases run with
  | crash => rfl
  | normal isR o1 o2 o3 ck api =>
    simp only [handler]
    repeat' split
    all_goals rfl

/-! ## Claim C2 — `lastFetched` aggregation -/

theorem lookup_mem {V : Type} {k : String} {v : V} :
    ∀ {l : List (String × V)}, l.lookup k = some v → (k, v) ∈ l := by
  intro l
  induction l with
  | nil => intro h; simp [List.lookup] at h
  | cons hd tl ih =>
    obtain ⟨k0, v0⟩ := hd
    intro h
    by_cases hk : k = k0
    · subst hk
      simp [List.lookup] at h
      simp [h]
    · have hne : (k == k0) = false := by
        simp only [beq_eq_false_iff_ne, ne_eq]; exact hk
      simp only [List.lookup, hne] at h
      exact List.mem_cons_of_mem _ (ih h)

/-- All `lastFetched` stamps in the handler's data cache are in the past. -/
def stampsLe (σ : DashState) (now : ℕ) : Prop :=
  ∀ kv ∈ σ.dataCache, kv.2.lastFetched ≤ now

theorem getData_stampsLe (σ : DashState) (now : ℕ) (k : String)
    (h : stampsLe σ now) : stampsLe (DashboardCache.getData σ k now).2 now := by
  unfold DashboardCache.getData
  rcases hl : σ.dataCache.lookup k with _ | e
  · intro kv hkv
    exact h kv (mem_of_mem_mapDelete hkv)
  · by_cases hexp : now > e.expires
    · simp only [hexp, if_pos]
      intro kv hkv
      exact h kv (mem_of_mem_mapDelete hkv)
    · simp only [hexp, if_neg, if_false]
      exact h

theorem getData_some_le {σ : DashState} {now : ℕ} {k : String} {e : DataCacheEntry}
    (h : stampsLe σ now)
    (hg : (DashboardCache.getData σ k now).1 = some e) : e.lastFetched ≤ now := by
  unfold DashboardCache.getData at hg
  rcases hl : σ.dataCache.lookup k with _ | e0 <;> rw [hl] at hg
  · simp at hg
  · by_cases hexp : now > e0.expires
    · simp [hexp] at hg
    · simp [hexp] at hg
      subst hg
      exact h (k, e0) (lookup_mem hl)

theorem getData_some_state {σ : DashState} {now : ℕ} {k : String} {e : DataCacheEntry}
    (hg : (DashboardCache.getData σ k now).1 = some e) :
    DashboardCache.getData σ k now = (some e, σ) := by
  unfold DashboardCache.getData at hg ⊢
  rcases hl : σ.dataCache.lookup k with _ | e0 <;> rw [hl] at hg
  · simp at hg
  · by_cases hexp : now > e0.expires
    · simp [hexp] at hg
    · simp [hexp] at hg ⊢
      simp [hg]

theorem setData_stampsLe {σ : DashState} {now : ℕ} (k : String) (d : SourceData)
    (ttl : ℕ) (h : stampsLe σ now) :
    stampsLe (DashboardCache.setData σ k d ttl now) now := by
  intro kv hkv
  rcases mem_mapSet hkv with h2 | h2
  · exact h kv h2
  · simp [h2]

theorem fetchWithCache_le {σ : DashState} {now : ℕ} (src : String)
    (o : SourceOutcome) (fb : SourceData) (h : stampsLe σ now) :
    (fetchWithCache σ now src o fb).1.2 ≤ now ∧
    stampsLe (fetchWithCache σ now src o fb).2 now := by
  unfold fetchWithCache
  rcases hg : DashboardCache.getData σ src now with ⟨og, σ1⟩
  have hσ1 : stampsLe σ1 now := by
    have := getData_stampsLe σ now src h
    rw [hg] at this
    exact this
  cases og with
  | some e =>
    have he : e.lastFetched ≤ now := by
      apply getData_some_le h
      rw [hg]
    exact ⟨he, hσ1⟩
  | none =>
    cases o with
    | ok d =>
      exact ⟨Nat.le_refl _, setData_stampsLe _ _ _ hσ1⟩
    | err => exact ⟨Nat.le_refl _, hσ1⟩

/-- C2 (amended): every source outcome contributes a timestamp to the
`lastFetched` maximum — a cache hit contributes its stored fetch stamp,
and *both* a fresh fetch and a failed fetch contribute the current time
(`fetchWithCache` stamps its fallback with `new Date()`, and
`Promise.allSettled` sees it as fulfilled).  Hence whenever the first
source misses its cache and its fetcher rejects, `lastFetched` equals the
current time — not the maximum over successful sources only; only when all
three sources hit fresh cache entries is `lastFetched` the maximum of the
three stored per-source stamps. -/
theorem claim_C2_theorem (σ : DashState) (now : ℕ) (o1 o2 o3 : SourceOutcome)
    (hst : stampsLe σ now) :
    ((DashboardCache.getData σ "fred" now).1 = none → o1 = .err →
      (fetchAllData σ now o1 o2 o3).1.lastFetched = now) ∧
    (∀ e1 e2 e3,
      (DashboardCache.getData σ "fred" now).1 = some e1 →
      (DashboardCache.getData σ "eia" now).1 = some e2 →
      (DashboardCache.getData σ "weather" now).1 = some e3 →
      (fetchAllData σ now o1 o2 o3).1.lastFetched =
        max e1.lastFetched (max e2.lastFetched e3.lastFetched)) := by
  constructor
  · intro hmiss ho1
    subst ho1
    rcases hg : DashboardCache.getData σ "fred" now with ⟨og, σ1⟩
    rw [hg] at hmiss; simp only at hmiss; subst hmiss
    have hσ1 : stampsLe σ1 now := by
      have := getData_stampsLe σ now "fred" hst
      rw [hg] at this; exact this
    have hf1 : fetchWithCache σ now "fred" .err fredHandlerFallback
        = ((fredHandlerFallback, now), σ1) := by
      simp [fetchWithCache, hg]
    rcases h2 : fetchWithCache σ1 now "eia" o2 eiaHandlerFallback with ⟨⟨d2, t2⟩, σ2⟩
    have hb2 := fetchWithCache_le "eia" o2 eiaHandlerFallback hσ1
    rw [h2] at hb2
    rcases h3 : fetchWithCache σ2 now "weather" o3 weatherHandlerFallback with ⟨⟨d3, t3⟩, σ3⟩
    have hb3 := fetchWithCache_le "weather" o3 weatherHandlerFallback hb2.2
    rw [h3] at hb3
    simp only [fetchAllData, hf1, h2, h3]
    have ht2 : t2 ≤ now := hb2.1
    have ht3 : t3 ≤ now := hb3.1
    omega
  · intro e1 e2 e3 h1 h2 h3
    have hf1 : fetchWithCache σ now "fred" o1 fredHandlerFallback
        = ((e1.data, e1.lastFetched), σ) := by
      simp [fetchWithCache, getData_some_state h1]
    have hf2 : fetchWithCache σ now "eia" o2 eiaHandlerFallback
        = ((e2.data, e2.lastFetched), σ) := by
      simp [fetchWithCache, getData_some_state h2]
    have hf3 : fetchWithCache σ now "weather" o3 weatherHandlerFallback
        = ((e3.data, e3.lastFetched), σ) := by
      simp [fetchWithCache, getData_some_state h3]
    simp [fetchAllData, hf1, hf2, hf3]

/-- C2 counterexample: `fred` and `eia` hold fresh cache entries fetched
at times 1000 and 2000, the weather fetch fails at `now = 5000`; the claim
requires `lastFetched = max 1000 2000 = 2000` (failed sources contribute
no timestamp), but the handler computes 5000 — the failed source was
stamped with the current time. -/
theorem claim_C2_counterexample :
    (fetchAllData
        ⟨[("fred", ⟨fredHandlerFallback, 1000, 999999999⟩),
          ("eia", ⟨eiaHandlerFallback, 2000, 999999999⟩)], []⟩
        5000 .err .err .err).1.lastFetched = 5000 ∧
    (5000 : ℕ) ≠ max 1000 2000 := by
  constructor
  · rfl
  · decide

/-- C2 witness: with empty caches a failing first source yields
`lastFetched = now`; with three fresh cache entries `lastFetched` is the
maximum of the three stored stamps. -/
theorem claim_C2_witness :
    (fetchAllData ⟨[], []⟩ 7 .err .err .err).1.lastFetched = 7 ∧
    (fetchAllData
        ⟨[("fred", ⟨fredHandlerFallback, 100, 999999⟩),
          ("eia", ⟨eiaHandlerFallback, 300, 999999⟩),
          ("weather", ⟨weatherHandlerFallback, 200, 999999⟩)], []⟩
        400 .err .err .err).1.lastFetched = max 100 (max 300 200) :=
  ⟨(claim_C2_theorem ⟨[], []⟩ 7 .err .err .err
      (by unfold stampsLe; decide)).1 (by decide) rfl,
   (claim_C2_theorem
      ⟨[("fred", ⟨fredHandlerFallback, 100, 999999⟩),
        ("eia", ⟨eiaHandlerFallback, 300, 999999⟩),
        ("weather", ⟨weatherHandlerFallback, 200, 999999⟩)], []⟩
      400 .err .err .err (by unfold stampsLe; decide)).2
     ⟨fredHandlerFallback, 100, 999999⟩ ⟨eiaHandlerFallback, 300, 999999⟩
     ⟨weatherHandlerFallback, 200, 999999⟩ (by decide) (by decide) (by decide)⟩

/-! ## Claim C1 — the insight fallback chain -/

/-- When every key of the insight cache equals the current fingerprint (as
in every reachable state: the constant fingerprint is the only key ever
written) and the pre-call lookup misses, the post-lookup cache is empty —
a stale entry was evicted, an absent one never existed. -/
theorem insightCache_single_key_miss {σ : InsightCacheState} {h : String} {now : ℕ}
    (hkeys : ∀ kv ∈ σ, kv.1 = h) (hnd : (σ.map Prod.fst).Nodup)
    (hmiss : (InsightCache.get σ h now).1 = none) :
    (InsightCache.get σ h now).2 = [] := by
  cases σ with
  | nil => rfl
  | cons hd tl =>
    obtain ⟨k0, e⟩ := hd
    have hk0 : k0 = h := hkeys (k0, e) (List.mem_cons_self _ _)
    subst hk0
    have htl : tl = [] := by
      cases tl with
      | nil => rfl
      | cons hd2 tl2 =>
        obtain ⟨k1, e1⟩ := hd2
        have hk1 : k1 = k0 := hkeys (k1, e1) (by simp)
        subst hk1
        simp at hnd
    subst htl
    by_cases hexp : now > e.expires
    · simp [InsightCache.get, SimpleCache.get, List.lookup, hexp, mapDelete]
    · exfalso
      simp [InsightCache.get, SimpleCache.get, List.lookup, hexp] at hmiss

/-- C1 (amended): on a failed generation (missing credential, timeout,
non-2xx or parse failure) with valid input, `analyzeInsight` never serves
a stale fingerprint-matching cache entry — the lookup preceding the call
already evicted it — and the `catch` block instead serves the
*first-inserted* entry still in the cache regardless of fingerprint
(`Array.from(cache.values())[0]`, not the most recently produced), else
the rule-based fallback.  Because every cache key equals the (constant)
fingerprint of the current data, no entry remains after a miss, so every
failed call in a reachable state returns the rule-based fallback
insight. -/
theorem claim_C1_theorem (md5 : String → String) (data : JsValue)
    (apiKey : Option String) (api : ApiOutcome)
    (σ : InsightCacheState) (now : ℕ)
    (hv : validateInputData data = true)
    (hfail : apiKey = none ∨ api = .failure)
    (hmiss : (InsightCache.get σ (generateDataHash md5 (toInsightInput data)) now).1
      = none) :
    ((analyzeInsight md5 data apiKey api σ now).resp =
      analyzeCatch
        (InsightCache.get σ (generateDataHash md5 (toInsightInput data)) now).2
        (toInsightInput data)) ∧
    ((∀ kv ∈ σ, kv.1 = generateDataHash md5 (toInsightInput data)) →
      (σ.map Prod.fst).Nodup →
      (analyzeInsight md5 data apiKey api σ now).resp =
        fallbackInsightInline (toInsightInput data)) := by
  rcases hg : InsightCache.get σ (generateDataHash md5 (toInsightInput data)) now
    with ⟨o, σ1⟩
  rw [hg] at hmiss; simp only at hmiss; subst hmiss
  have hres : (analyzeInsight md5 data apiKey api σ now).resp
      = analyzeCatch σ1 (toInsightInput data) := by
    rcases hfail with hk | ha
    · subst hk
      simp [analyzeInsight, hv, hg]
    · subst ha
      cases apiKey with
      | none => simp [analyzeInsight, hv, hg]
      | some k => simp [analyzeInsight, hv, hg]
  constructor
  · rw [hres]
  · intro hkeys hnd
    have hempty : (InsightCache.get σ
        (generateDataHash md5 (toInsightInput data)) now).2 = [] :=
      insightCache_single_key_miss hkeys hnd (by rw [hg])
    rw [hg] at hempty
    have hσ1 : σ1 = [] := by simpa using hempty
    subst hσ1
    rw [hres]
    rfl

/-- C1 counterexample: the cache holds exactly one — stale — entry for the
current fingerprint (`expires = 100 < now`), the Claude call fails, and
`analyzeInsight` returns the rule-based generic fallback, not the stale
cached insight the claim requires as the first fallback ("even if
stale"). -/
theorem claim_C1_counterexample :
    ((analyzeInsight (fun _ => "K")
        (toJsValue ⟨102.4, "→ 0.2% MoM"⟩ ⟨12.5, .stable⟩ ⟨70, "none"⟩)
        (some "sk") .failure
        [("K", ⟨⟨"old summary", "old rec"⟩, 100⟩)] 2000000000).resp
      = genericInsight) ∧
    genericInsight ≠ (⟨"old summary", "old rec"⟩ : InsightResponse) ∧
    (generateDataHash (fun _ => "K")
        (toInsightInput (toJsValue ⟨102.4, "→ 0.2% MoM"⟩ ⟨12.5, .stable⟩ ⟨70, "none"⟩))
      = "K") ∧
    (100 : ℕ) < 2000000000 := by
  refine ⟨by decide, by decide, rfl, by decide⟩

/-- C1 witness: same failing scenario (missing credential this time); the
stale entry is evicted and the rule-based fallback is served, as the
amended theorem states for single-fingerprint cache states. -/
theorem claim_C1_witness :
    (analyzeInsight (fun _ => "K")
        (toJsValue ⟨102.4, "→ 0.2% MoM"⟩ ⟨12.5, .stable⟩ ⟨70, "none"⟩)
        none .failure
        [("K", ⟨⟨"old summary", "old rec"⟩, 100⟩)] 2000000000).resp
      = fallbackInsightInline
          (toInsightInput
            (toJsValue ⟨102.4, "→ 0.2% MoM"⟩ ⟨12.5, .stable⟩ ⟨70, "none"⟩)) :=
  (claim_C1_theorem (fun _ => "K")
      (toJsValue ⟨102.4, "→ 0.2% MoM"⟩ ⟨12.5, .stable⟩ ⟨70, "none"⟩)
      none .failure [("K", ⟨⟨"old summary", "old rec"⟩, 100⟩)] 2000000000
      (by decide) (Or.inl rfl) (by decide)).2 (by decide) (by decide)

/-! ## Claim C9 — what gets stored in the insight caches -/

theorem insightGet_sublist (σ : InsightCacheState) (k : String) (now : ℕ) :
    (InsightCache.get σ k now).2.Sublist σ := by
  unfold InsightCache.get SimpleCache.get
  rcases hl : σ.lookup k with _ | e
  · exact List.Sublist.refl σ
  · by_cases hexp : now > e.expires
    · simp only [hexp, if_pos]
      exact mapDelete_sublist σ k
    · simp only [hexp, if_neg, if_false]
      exact List.Sublist.refl σ

/-- C9 (amended): the *module-level* cache of `fetchInsight.ts` does obey
the claimed discipline — a failed or credential-less generation never adds
to it (its final state is a sublist of the initial one: at most a stale
eviction), and a successful generation adds only the parse-validated AI
response under the current fingerprint.  The handler's fingerprint-keyed
`insightCache` in `dashboard.ts`, however, violates the claim: it stores
whatever `analyzeInsight` returns — including the rule-based fallback —
because `analyzeInsight` never throws, making the handler's own fallback
chain dead code (see `claim_C9_counterexample`). -/
theorem claim_C9_theorem (md5 : String → String) (data : JsValue)
    (apiKey : Option String) (api : ApiOutcome)
    (σ : InsightCacheState) (now : ℕ) :
    ((apiKey = none ∨ api = .failure) →
      (analyzeInsight md5 data apiKey api σ now).state.Sublist σ) ∧
    (∀ r, api = .success r →
      ∀ kv ∈ (analyzeInsight md5 data apiKey api σ now).state,
        kv ∈ σ ∨ kv = (generateDataHash md5 (toInsightInput data),
                       ⟨r, now + insightCacheTTL⟩)) := by
  constructor
  · intro hfail
    by_cases hv : validateInputData data = true
    · rcases hg : InsightCache.get σ (generateDataHash md5 (toInsightInput data)) now
        with ⟨o, σ1⟩
      have hsub : σ1.Sublist σ := by
        have := insightGet_sublist σ (generateDataHash md5 (toInsightInput data)) now
        rw [hg] at this
        exact this
      cases o with
      | some c =>
        simp only [analyzeInsight, hv, hg]
        simpa using hsub
      | none =>
        rcases hfail with hk | ha
        · subst hk
          simp only [analyzeInsight, hv, hg]
          simpa using hsub
        · subst ha
          cases apiKey with
          | none =>
            simp only [analyzeInsight, hv, hg]
            simpa using hsub
          | some k =>
            simp only [analyzeInsight, hv, hg]
            simpa using hsub
    · have hv2 : validateInputData data = false := by simpa using hv
      simp only [analyzeInsight, hv2]
      simp
  · intro r ha kv hkv
    subst ha
    by_cases hv : validateInputData data = true
    · rcases hg : InsightCache.get σ (generateDataHash md5 (toInsightInput data)) now
        with ⟨o, σ1⟩
      have hsub : σ1.Sublist σ := by
        have := insightGet_sublist σ (generateDataHash md5 (toInsightInput data)) now
        rw [hg] at this
        exact this
      cases o with
      | some c =>
        simp only [analyzeInsight, hv, hg] at hkv
        exact Or.inl (hsub.mem hkv)
      | none =>
        cases apiKey with
        | none =>
          simp only [analyzeInsight, hv, hg] at hkv
          exact Or.inl (hsub.mem hkv)
        | some k =>
          simp only [analyzeInsight, hv, hg, InsightCache.set, SimpleCache.set] at hkv
          rcases mem_mapSet hkv with h2 | h2
          · exact Or.inl (hsub.mem h2)
          · exact Or.inr h2
    · have hv2 : validateInputData data = false := by simpa using hv
      simp only [analyzeInsight, hv2] at hkv
      exact Or.inl hkv

/-- C9 counterexample: with both caches empty, no credential, and a
failing AI call, one request through the handler stores the *rule-based
fallback* pair into the fingerprint-keyed insight cache of `dashboard.ts`
(no AI response was ever validated — `fetchInsight`'s own cache stays
empty), contradicting the claim that no execution path stores a
rule-based fallback and that a failed generation leaves the insight cache
unchanged. -/
theorem claim_C9_counterexample :
    ((handler (fun _ => "H") (fun _ => "M")
        (.normal false .err .err .err none .failure) ⟨[], []⟩ [] 5).2.1).insightCache
      = [("H", ⟨weatherAlertInsight, "H", 5, 1800005⟩)] ∧
    weatherAlertInsight
      = fallbackInsightInline
          ⟨⟨102.4, "→ Data unavailable"⟩, ⟨12.5, .stable⟩,
           ⟨75, "Weather data unavailable"⟩⟩ ∧
    ((handler (fun _ => "H") (fun _ => "M")
        (.normal false .err .err .err none .failure) ⟨[], []⟩ [] 5).2.2
      = ([] : InsightCacheState)) := by
  refine ⟨by decide, by decide, by decide⟩

/-- C9 witness: a failed generation leaves `fetchInsight`'s cache a
sublist of what it was, and after a successful generation the only entry
not already present is the parse-validated response keyed by the
fingerprint. -/
theorem claim_C9_witness :
    ((analyzeInsight (fun _ => "M")
        (toJsValue ⟨102.4, "→ 0.2% MoM"⟩ ⟨12.5, .stable⟩ ⟨70, "none"⟩)
        none .failure [("M", ⟨⟨"s0", "r0"⟩, 50⟩)] 99).state.Sublist
      [("M", ⟨⟨"s0", "r0"⟩, 50⟩)]) ∧
    (("M", (⟨⟨"s1", "r1"⟩, 1800005⟩ : CacheEntry InsightResponse))
        ∈ ([] : InsightCacheState) ∨
      ("M", (⟨⟨"s1", "r1"⟩, 1800005⟩ : CacheEntry InsightResponse))
        = ("M", ⟨⟨"s1", "r1"⟩, 1800005⟩)) :=
  ⟨(claim_C9_theorem (fun _ => "M")
      (toJsValue ⟨102.4, "→ 0.2% MoM"⟩ ⟨12.5, .stable⟩ ⟨70, "none"⟩)
      none .failure [("M", ⟨⟨"s0", "r0"⟩, 50⟩)] 99).1 (Or.inl rfl),
   (claim_C9_theorem (fun _ => "M")
      (toJsValue ⟨102.4, "→ 0.2% MoM"⟩ ⟨12.5, .stable⟩ ⟨70, "none"⟩)
      (some "sk") (.success ⟨"s1", "r1"⟩) [] 5).2 ⟨"s1", "r1"⟩ rfl
     ("M", ⟨⟨"s1", "r1"⟩, 1800005⟩) (by decide)⟩
